import Mathlib

/-!
Shallow embedding of the banking analytics pipeline
(`src/ingestion/generate_sample_data.py`, `src/ingestion/load_data_to_db.py`,
`src/database/db_connection.py`) and proofs about its specification claims.

Modelling conventions:
* Python floats are modelled as rationals (`ℚ`); `round(x, 2)` is modelled as
  round-half-to-even at two decimal places (`round2`), the documented behaviour
  of Python's `round`.
* Timestamps are modelled as integers (`ℤ`, seconds).
* Every call to a random source (`random.choice`, `random.choices`,
  `np.random.normal`, `np.random.lognormal`, `random.randint`) is modelled by an
  oracle function carried in a `...Rand` structure, keyed by the loop counter at
  which the call happens.  Distribution parameters (means, sigmas, weights) do
  not constrain the oracle; where a property needs a fact that holds for every
  draw of the real distribution (for example, log-normal draws are positive) it
  is taken as an explicit hypothesis.
* Fallible Python code (raising) is modelled with `Except String`.
-/

namespace Bank

/-- Round-half-to-even of a rational to an integer: the behaviour of Python's
built-in `round` (banker's rounding). -/
def roundHalfEven (x : ℚ) : ℤ :=
  if x - ⌊x⌋ < 1/2 then ⌊x⌋
  else if 1/2 < x - ⌊x⌋ then ⌊x⌋ + 1
  else if ⌊x⌋ % 2 = 0 then ⌊x⌋ else ⌊x⌋ + 1

/-- Python `round(x, 2)`: round-half-to-even at two decimal places. -/
def round2 (x : ℚ) : ℚ := (roundHalfEven (x * 100) : ℚ) / 100

/-- Zero-padding of a decimal string to width `w`, as in Python's
format specifier `{i:05d}` (pads only when the string is shorter than `w`). -/
def pad0 (w : Nat) (s : String) : String :=
  String.mk (List.replicate (w - s.length) '0') ++ s

/-! ## Embedding of `generate_sample_data.py` -/

/-- Python `f"CUST_{i:05d}"` (generate_sample_data.py line 40). -/
def custId (i : Nat) : String := "CUST_" ++ pad0 5 (Nat.repr i)

/-- Python `f"ACC_{account_counter:07d}"` (line 63). -/
def accId (i : Nat) : String := "ACC_" ++ pad0 7 (Nat.repr i)

/-- Python `f"TXN_{txn_counter:010d}"` (line 119). -/
def txnId (i : Nat) : String := "TXN_" ++ pad0 10 (Nat.repr i)

/-- The `regions` list of `generate_customer_data` (line 34). -/
def regions : List String :=
  ["Qatar_North", "Qatar_South", "Qatar_East", "Qatar_West", "Doha_Central"]

/-- A generated customer record (lines 46-51). -/
structure Customer where
  customer_id : String
  customer_name : String
  region : String
  account_open_date : ℤ
deriving DecidableEq

/-- Oracle for the random draws of `generate_customer_data`, keyed by the
customer index `i`: `random.choice(regions)` and the `random.randint` second
offset of the open date. -/
structure CustomerRand where
  regionChoice : Nat → Fin regions.length
  openOffset : Nat → ℤ

/-- Embedding of `generate_customer_data(n_customers)` (lines 32-52): for
`i = 1..n`, a record with a formatted sequential id, a name derived from `i`,
a randomly chosen region and a start date plus a random offset (the `.date()`
truncation of the stored open date is not modelled; no claim concerns it). -/
def generate_customer_data (n_customers : Nat) (rnd : CustomerRand)
    (start_date : ℤ) : List Customer :=
  (List.range n_customers).map (fun k =>
    let i := k + 1
    ⟨custId i, "Customer " ++ Nat.repr i, regions.get (rnd.regionChoice i),
      start_date + rnd.openOffset i⟩)

/-- The `account_types` list (line 56). -/
def account_types : List String := ["Savings", "Checking", "Credit"]

/-- A generated account record (lines 74-79). -/
structure Account where
  account_id : String
  customer_id : String
  account_type : String
  balance : ℚ
deriving DecidableEq

/-- Oracle for the random draws of `generate_account_data`:
`numAccountsDraw` is `int(np.random.normal(avg, 0.7))` keyed by the customer
row index; `typeChoice` is the weighted `random.choices(account_types, ...)`
index and `balanceDraw` the log-normal base-balance draw, both keyed by the
account counter.  The three log-normal parameterisations (by type) share one
oracle since exactly one draw happens per account. -/
structure AccountRand where
  numAccountsDraw : Nat → ℤ
  typeChoice : Nat → Fin account_types.length
  balanceDraw : Nat → ℚ

/-- One iteration of the inner account loop (lines 63-79): type is a weighted
choice; the log-normal base balance is negated for Credit (line 71); the
balance is `round(max(0, base) if type != 'Credit' else base, 2)` (line 72). -/
def mkAccount (rnd : AccountRand) (cust : Customer) (counter : Nat) : Account :=
  let account_type := account_types.get (rnd.typeChoice counter)
  let base_balance : ℚ :=
    if account_type = "Credit" then -(rnd.balanceDraw counter)
    else rnd.balanceDraw counter
  let balance :=
    round2 (if account_type ≠ "Credit" then max 0 base_balance else base_balance)
  ⟨accId counter, cust.customer_id, account_type, balance⟩

/-- The outer customer loop of `generate_account_data` (lines 60-80), threading
the 1-based `account_counter`; `num_accounts = max(1, int(normal(...)))`
(line 61). -/
def generate_account_data_aux (rnd : AccountRand) :
    List Customer → Nat → Nat → List Account
  | [], _, _ => []
  | cust :: rest, custIdx, counter =>
    let num_accounts := (max 1 (rnd.numAccountsDraw custIdx)).toNat
    ((List.range num_accounts).map (fun j => mkAccount rnd cust (counter + j)))
      ++ generate_account_data_aux rnd rest (custIdx + 1) (counter + num_accounts)

/-- Embedding of `generate_account_data(customer_df, avg)` (lines 54-81). -/
def generate_account_data (customer_df : List Customer) (rnd : AccountRand) :
    List Account :=
  generate_account_data_aux rnd customer_df 0 1

/-- The five transaction types, in the key order of every `txn_probs` entry
(lines 85, 92-96). -/
def transaction_types : List String :=
  ["Deposit", "Withdrawal", "Transfer_In", "Transfer_Out", "Payment"]

/-- The categories of the weighted `random.choices` for Payment transactions
(lines 148-151). -/
def payment_categories : List String :=
  ["Grocery", "Gas_Station", "Restaurant", "Online_Retail", "Entertainment",
   "Service_Payment"]

/-- The `mcc_codes` lookup dictionary (lines 87-91): every code is a 4-digit
string. -/
def mcc_codes : List (String × String) :=
  [("Grocery", "5411"), ("Gas_Station", "5541"), ("Restaurant", "5812"),
   ("Online_Retail", "5964"), ("Entertainment", "7996"),
   ("ATM_Withdrawal", "6010"), ("Transfer", "6012"),
   ("Service_Payment", "4814"), ("Unknown", "0000")]

/-- Python `mcc_codes.get(mcc_desc, '0000')` (line 157); the f-string wrapper
on line 160 is the identity on strings. -/
def mccOf (mcc_desc : String) : String :=
  (mcc_codes.lookup mcc_desc).getD "0000"

/-- A generated transaction record (lines 165-173). -/
structure Txn where
  transaction_id : String
  account_id : String
  transaction_date : ℤ
  transaction_type : String
  amount : ℚ
  merchant_category_code : String
  description : String
deriving DecidableEq, Inhabited

/-- Oracle for the random draws of `generate_transaction_data`:
`totalDraw` is `int(np.random.normal(avg*months, 3))` keyed by the account row
index; `dateDraw` the `random.randint` date offsets keyed by (account row,
draw index); `typeChoice` the weighted transaction-type choice, `amountDraw`
the log-normal amount draw and `mccChoice` the Payment-category choice, each
keyed by the transaction counter. -/
structure TxnRand where
  totalDraw : Nat → ℤ
  dateDraw : Nat → Nat → ℤ
  typeChoice : Nat → Fin transaction_types.length
  amountDraw : Nat → ℚ
  mccChoice : Nat → Fin payment_categories.length

/-- Python `s.replace('_', ' ')` (line 162). -/
def replaceUnderscores (s : String) : String :=
  String.map (fun c => if c = '_' then ' ' else c) s

/-- The amount computation for outflow types (lines 129-131):
`max_outflow = max(10, running_balance * 0.5) if running_balance > 0 else 1000`,
`amount = round(min(max_outflow, draw), 2)`, `amount = max(1.0, amount)`. -/
def outflow_amount (running_balance draw : ℚ) : ℚ :=
  let max_outflow :=
    if 0 < running_balance then max 10 (running_balance * (1/2)) else 1000
  max 1 (round2 (min max_outflow draw))

/-- The amount computation (lines 126-133): inflow types round the raw
log-normal draw; outflow types use `outflow_amount`; the unreachable fallback
rounds its own draw. -/
def txnAmount (txn_type : String) (running_balance draw : ℚ) : ℚ :=
  if txn_type = "Deposit" ∨ txn_type = "Transfer_In" then round2 draw
  else if txn_type = "Withdrawal" ∨ txn_type = "Transfer_Out" ∨
      txn_type = "Payment" then
    outflow_amount running_balance draw
  else round2 draw

/-- The MCC description assignment (lines 143-153). -/
def mccDescOf (rnd : TxnRand) (counter : Nat) (txn_type : String) : String :=
  if txn_type = "Withdrawal" then "ATM_Withdrawal"
  else if txn_type = "Transfer_In" ∨ txn_type = "Transfer_Out" then "Transfer"
  else if txn_type = "Payment" then payment_categories.get (rnd.mccChoice counter)
  else "Unknown"

/-- The per-date loop of `generate_transaction_data` (lines 118-174), walking
the sorted dates while threading the running balance and the transaction
counter; the balance update adds inflows and subtracts outflows
(lines 135-138). -/
def genTxnsOverDates (rnd : TxnRand) (account_id account_type : String) :
    List ℤ → ℚ → Nat → List Txn × Nat
  | [], _, txn_counter => ([], txn_counter)
  | txn_date :: rest, running_balance, txn_counter =>
    let txn_type := transaction_types.get (rnd.typeChoice txn_counter)
    let draw := rnd.amountDraw txn_counter
    let amount := txnAmount txn_type running_balance draw
    let rb2 :=
      if txn_type = "Deposit" ∨ txn_type = "Transfer_In" then
        running_balance + amount
      else if txn_type = "Withdrawal" ∨ txn_type = "Transfer_Out" ∨
          txn_type = "Payment" then
        running_balance - amount
      else running_balance
    let mcc_desc := mccDescOf rnd txn_counter txn_type
    let txn : Txn :=
      ⟨txnId txn_counter, account_id, txn_date, txn_type, amount,
        mccOf mcc_desc,
        replaceUnderscores txn_type ++ " at " ++ replaceUnderscores mcc_desc⟩
    let next := genTxnsOverDates rnd account_id account_type rest rb2
      (txn_counter + 1)
    (txn :: next.1, next.2)

/-- The per-account body of `generate_transaction_data` (lines 104-118):
`total_txns = max(5, int(normal(...)))`, that many random dates, sorted
ascending (`txn_dates.sort()`, line 115, modelled by `insertionSort`), then the
per-date loop seeded with the account's stored balance. -/
def genTxnsForAccount (rnd : TxnRand) (acc : Account) (accIdx txn_counter : Nat) :
    List Txn × Nat :=
  let total_txns := (max 5 (rnd.totalDraw accIdx)).toNat
  let txn_dates := (List.range total_txns).map (rnd.dateDraw accIdx)
  let sorted_dates := txn_dates.insertionSort (· ≤ ·)
  genTxnsOverDates rnd acc.account_id acc.account_type sorted_dates acc.balance
    txn_counter

/-- The outer account loop of `generate_transaction_data` (lines 104-174),
threading the 1-based transaction counter across accounts. -/
def generate_transaction_data_aux (rnd : TxnRand) :
    List Account → Nat → Nat → List Txn
  | [], _, _ => []
  | acc :: rest, accIdx, txn_counter =>
    let p := genTxnsForAccount rnd acc accIdx txn_counter
    p.1 ++ generate_transaction_data_aux rnd rest (accIdx + 1) p.2

/-- Embedding of `generate_transaction_data(account_df, months, avg)`
(lines 83-188).  The final `astype('object')` pass (lines 180-183) is the
identity on the already-string fields and the `pd.to_datetime` pass
(line 186) is the identity on the already-datetime dates, so neither changes
the records. -/
def generate_transaction_data (account_df : List Account) (rnd : TxnRand) :
    List Txn :=
  generate_transaction_data_aux rnd account_df 0 1

/-! ## Embedding of `load_data_to_db.py` -/

/-- The `if_exists` argument of `pandas.DataFrame.to_sql`. -/
inductive IfExists where
  | replace
  | append
deriving DecidableEq

/-- Semantics of one `chunk.to_sql(table_name, ..., if_exists=mode, ...)` call
(line 95) on a store modelled as `Option (List α)` (`none` = table absent):
`replace` drops the table and recreates it holding exactly the chunk;
`append` creates the table if absent and appends the chunk. -/
def to_sql (table : Option (List α)) (mode : IfExists) (chunk : List α) :
    Option (List α) :=
  match mode with
  | .replace => some chunk
  | .append => some (table.getD [] ++ chunk)

/-- Splitting a row list into consecutive batches of `n` rows, as
`pd.read_csv(..., chunksize=n)` yields them (the chunk size is clamped to at
least 1; pandas rejects `chunksize < 1`). -/
def chunksOf (n : Nat) : List α → List (List α)
  | [] => []
  | x :: xs =>
    (x :: xs).take (max 1 n) :: chunksOf n ((x :: xs).drop (max 1 n))
termination_by l => l.length
decreasing_by
  simp only [List.length_drop, List.length_cons]
  omega

/-- Observable outcome of one `load_csv_to_table` run: the table contents, the
number of batches processed, and the `rows_loaded` counter the loader logs
(line 96). -/
structure LoadOutcome (α : Type) where
  table : Option (List α)
  batches : Nat
  rows_loaded : Nat
deriving DecidableEq

/-- Embedding of the batch loop of `load_csv_to_table` (lines 64-105): the file
rows are read in `chunk_size`-row batches; every batch is preprocessed (the
dtype fixes of lines 70-85, a parameter here; an error anywhere aborts and
re-raises) and then written with `to_sql` — with the same `if_exists` mode for
every batch, exactly as the source passes its `if_exists` argument unchanged
into every `chunk.to_sql` call. -/
def load_csv_to_table (rows : List α) (chunk_size : Nat) (if_exists : IfExists)
    (preprocess : List α → Except String (List α)) (table0 : Option (List α)) :
    Except String (LoadOutcome α) :=
  (chunksOf chunk_size rows).foldlM
    (fun st chunk => do
      let chunk2 ← preprocess chunk
      pure ⟨to_sql st.table if_exists chunk2, st.batches + 1,
        st.rows_loaded + chunk2.length⟩)
    ⟨table0, 0, 0⟩

/-- A value held in one cell of a pandas DataFrame column, after `read_csv`. -/
inductive Cell where
  | str : String → Cell
  | int : ℤ → Cell
  | nan : Cell
deriving DecidableEq

/-- A batch viewed column-wise, as the dtype-fixing code of lines 70-85 sees
it: a list of (column name, cells) pairs. -/
structure Chunk where
  cols : List (String × List Cell)
deriving DecidableEq

/-- Python `col in chunk.columns`. -/
def hasCol (chunk : Chunk) (name : String) : Bool :=
  chunk.cols.any (fun p => p.1 == name)

/-- Python `chunk[col]`: raises `KeyError` when the column is absent. -/
def getCol (chunk : Chunk) (name : String) : Except String (List Cell) :=
  match chunk.cols.find? (fun p => p.1 == name) with
  | some p => .ok p.2
  | none => .error ("KeyError: " ++ name)

/-- Python `chunk[col] = cells` for an existing column. -/
def setCol (chunk : Chunk) (name : String) (cells : List Cell) : Chunk :=
  ⟨chunk.cols.map (fun p => if p.1 == name then (p.1, cells) else p)⟩

/-- Python `str(x)` as applied cell-wise by `.astype(str)`. -/
def astypeStr : Cell → Cell
  | .str s => .str s
  | .int n => .str (toString n)
  | .nan => .str "nan"

/-- Cell-wise `.fillna(d)`. -/
def fillna (d : Cell) : Cell → Cell
  | .nan => d
  | c => c

/-- Cell-wise `pd.to_datetime(_, errors='coerce')`: parsable values become
timestamps, unparsable values become the missing marker `NaT` (line 72). -/
def to_datetime_coerce (parse : String → Option ℤ) : Cell → Cell
  | .str s =>
    match parse s with
    | some t => .int t
    | none => .nan
  | .int n => .int n
  | .nan => .nan

/-- The guarded column-patch pattern the loader uses for every dtype fix
(lines 70-85): `if col in chunk.columns: chunk[col] = f(chunk[col])`.  The
column access raises when the column is absent, but it only runs under the
presence guard. -/
def force_col_if_present (chunk : Chunk) (name : String)
    (f : List Cell → List Cell) : Except String Chunk :=
  if hasCol chunk name then do
    let cells ← getCol chunk name
    pure (setCol chunk name (f cells))
  else pure chunk

/-- The `critical_string_cols` list of line 82. -/
def critical_string_cols : List String :=
  ["transaction_id", "account_id", "transaction_type", "description"]

/-- The per-batch dtype fixes of `load_csv_to_table` (lines 70-85), in source
order: re-parse each designated date column (coercing failures to missing),
force `merchant_category_code` to `fillna('0000').astype(str)` if present,
then re-type the other critical string columns (`astype('object')`, which
keeps every cell value unchanged). -/
def preprocess_chunk (parse : String → Option ℤ) (parse_dates_cols : List String)
    (chunk : Chunk) : Except String Chunk := do
  let c1 ← parse_dates_cols.foldlM
    (fun ch col =>
      force_col_if_present ch col (List.map (to_datetime_coerce parse)))
    chunk
  let c2 ← force_col_if_present c1 "merchant_category_code"
    (List.map (fun c => astypeStr (fillna (.str "0000") c)))
  critical_string_cols.foldlM
    (fun ch col => force_col_if_present ch col (fun cells => cells)) c2

/-- Test for a nonempty all-digit string: exactly the values for which pandas
CSV type inference reads an integer. -/
def isDigitString (s : String) : Bool :=
  !s.isEmpty && s.toList.all (fun c => c.isDigit)

/-- Numeric value of an all-digit string. -/
def digitsToNat (s : String) : Nat :=
  s.toList.foldl (fun a c => a * 10 + (c.toNat - 48)) 0

/-- Round trip of the `merchant_category_code` column through the file:
the generator's `to_csv` writes the string cells verbatim (they are
alphanumeric, so no quoting happens); the loader's `pd.read_csv` (lines 56-61,
no dtype given) infers an integer column whenever every cell is a nonempty
digit string, parsing each cell to its numeric value; the loader then forces
the column back with `fillna('0000').astype(str)` (line 77), which renders an
integer cell as its decimal string.  A column holding any non-digit value is
inferred as object and the cells stay the original strings. -/
def mccColumnRoundTrip (cells : List String) : List String :=
  if cells.all isDigitString then
    cells.map (fun s => Nat.repr (digitsToNat s))
  else
    cells

/-! ## Embedding of `db_connection.py` -/

/-- Whitespace characters stripped by Python `int(raw)` before parsing. -/
def isSpaceChar (c : Char) : Bool :=
  (c == ' ') || (c == '\t') || (c == '\n') || (c == '\r') || (c == '\x0b') ||
    (c == '\x0c')

/-- Python `str.strip()` of surrounding whitespace, as performed by
`int(raw)` before parsing. -/
def pyStrip (s : String) : String :=
  String.mk (((s.toList.dropWhile isSpaceChar).reverse.dropWhile
    isSpaceChar).reverse)

/-- Continuation of a valid Python integer-literal body after its first digit:
digits, optionally separated by single underscores. -/
def pyIntBodyRest : List Char → Bool
  | [] => true
  | '_' :: c :: rest => c.isDigit && pyIntBodyRest rest
  | ['_'] => false
  | c :: rest => c.isDigit && pyIntBodyRest rest

/-- A valid Python integer-literal body: a first digit followed by digits with
optional single underscores between them. -/
def pyIntBody : List Char → Bool
  | [] => false
  | c :: rest => c.isDigit && pyIntBodyRest rest

/-- Numeric value of a parsed integer body (underscores skipped). -/
def digitsVal (cs : List Char) : ℤ :=
  ((cs.filter (fun c => c != '_')).foldl (fun a c => a * 10 + (c.toNat - 48)) 0 : Nat)

/-- Model of Python `int(s)` for a string argument: strip whitespace, allow one
optional sign, then a digit sequence with optional single underscores;
`none` models the `ValueError` of an unparsable string. -/
def pyInt (s : String) : Option ℤ :=
  match (pyStrip s).toList with
  | '+' :: rest => if pyIntBody rest then some (digitsVal rest) else none
  | '-' :: rest => if pyIntBody rest then some (-(digitsVal rest)) else none
  | rest => if pyIntBody rest then some (digitsVal rest) else none

/-- Embedding of `_env_int(name, default)` (db_connection.py lines 27-38):
unset or empty returns the default; otherwise the value must parse as an
integer in the range 1-65535, else a `ValueError` is raised. -/
def _env_int (raw : Option String) (default : ℤ) : Except String ℤ :=
  match raw with
  | none => .ok default
  | some r =>
    if r = "" then .ok default
    else
      match pyInt r with
      | none => .error ("must be an integer, got: " ++ r)
      | some value =>
        if 1 ≤ value ∧ value ≤ 65535 then .ok value
        else .error ("must be a valid TCP port (1-65535), got: " ++ r)

/-- The five environment variables `get_database_engine` reads. -/
structure Env where
  DB_USER : Option String
  DB_PASSWORD : Option String
  DB_HOST : Option String
  DB_PORT : Option String
  DB_NAME : Option String
deriving DecidableEq

/-- Python truthiness of an `os.getenv` result: `None` and `""` are falsy. -/
def truthy : Option String → Bool
  | none => false
  | some s => !s.isEmpty

/-- The `missing` list of line 61: the names among DB_USER, DB_PASSWORD,
DB_NAME whose value is unset or empty, in that fixed order. -/
def missing_vars (env : Env) : List String :=
  ([("DB_USER", env.DB_USER), ("DB_PASSWORD", env.DB_PASSWORD),
    ("DB_NAME", env.DB_NAME)].filter (fun p => !truthy p.2)).map Prod.fst

/-- The parts of the SQLAlchemy URL that `get_database_engine` assembles. -/
structure DbConfig where
  drivername : String
  username : String
  password : String
  host : String
  port : ℤ
  database : String
deriving DecidableEq

/-- Embedding of `get_database_engine()` (lines 41-79) up to the construction
of the engine URL: reads the five variables in source order — so an invalid
`DB_PORT` raises (line 58) before the missing-variables check runs
(lines 61-63) — then raises a `ValueError` naming every missing required
variable, and otherwise returns the connection configuration. -/
def get_database_engine (env : Env) : Except String DbConfig :=
  match _env_int env.DB_PORT 5432 with
  | .error e => .error e
  | .ok db_port =>
    let missing := missing_vars env
    if missing ≠ [] then
      .error ("Missing required environment variables: " ++
        String.intercalate ", " missing)
    else
      .ok ⟨"postgresql+psycopg", (env.DB_USER).getD "", (env.DB_PASSWORD).getD "",
        (env.DB_HOST).getD "localhost", db_port, (env.DB_NAME).getD ""⟩

/-- Whether an `Except` is an error (a raised Python exception in this model). -/
def isErr : Except String α → Bool
  | .error _ => true
  | .ok _ => false

/-! ## Auxiliary definitions used only in statements and witnesses -/

/-- The expected customer-id sequence `CUST_00001 .. CUST_{n:05d}`. -/
def customerIdList (n : Nat) : List String :=
  (List.range n).map (fun k => custId (k + 1))

/-- Reads the numeric part back out of a formatted id (digit characters,
most significant first). -/
def decodeId (s : String) : Nat :=
  s.toList.foldl (fun a c => if c.isDigit then a * 10 + (c.toNat - 48) else a) 0

/-- Concrete customer fixture for witnesses. -/
def custW : Customer := ⟨custId 1, "Customer 1", "Qatar_North", 0⟩

/-- Concrete account-generation oracle fixture for witnesses: one account per
customer, type `Checking`, base-balance draw 5. -/
def arndW : AccountRand := ⟨fun _ => 1, fun _ => ⟨1, by decide⟩, fun _ => 5⟩

/-- Concrete account fixture for witnesses. -/
def accW : Account := ⟨accId 1, custId 1, "Savings", 100⟩

/-- Concrete transaction-generation oracle fixture for witnesses: five
transactions, all dated 0, type `Deposit`, amount draw 7. -/
def trndW : TxnRand :=
  ⟨fun _ => 5, fun _ _ => 0, fun _ => ⟨0, by decide⟩, fun _ => 7,
    fun _ => ⟨0, by decide⟩⟩

/-- Concrete transactions batch without a `merchant_category_code` column. -/
def chunkW : Chunk :=
  ⟨[("transaction_id", [Cell.str "TXN_0000000001"]), ("amount", [Cell.int 5])]⟩

/-- Concrete environment fixture: `DB_USER` unset, everything else present,
`DB_PORT` unset (so the port parse succeeds with the default). -/
def envW : Env := ⟨none, some "pw", some "localhost", none, some "bankdb"⟩

/-! ## Helper lemmas about rounding -/

theorem roundHalfEven_le (x : ℚ) : (roundHalfEven x : ℚ) ≤ x + 1/2 := by
  unfold roundHalfEven
  have hfl : (⌊x⌋ : ℚ) ≤ x := Int.floor_le x
  have hfu : x < ⌊x⌋ + 1 := Int.lt_floor_add_one x
  split_ifs with h1 h2 h3
  · linarith
  · push_cast
    linarith
  · linarith
  · have htie : x - ⌊x⌋ = 1/2 := le_antisymm (not_lt.mp h2) (not_lt.mp h1)
    push_cast
    linarith

theorem le_roundHalfEven (x : ℚ) : x - 1/2 ≤ (roundHalfEven x : ℚ) := by
  unfold roundHalfEven
  have hfl : (⌊x⌋ : ℚ) ≤ x := Int.floor_le x
  have hfu : x < ⌊x⌋ + 1 := Int.lt_floor_add_one x
  split_ifs with h1 h2 h3
  · linarith
  · push_cast
    linarith
  · have htie : x - ⌊x⌋ = 1/2 := le_antisymm (not_lt.mp h2) (not_lt.mp h1)
    linarith
  · push_cast
    linarith

theorem round2_le (x : ℚ) : round2 x ≤ x + 1/200 := by
  unfold round2
  have h := roundHalfEven_le (x * 100)
  linarith

theorem le_round2 (x : ℚ) : x - 1/200 ≤ round2 x := by
  unfold round2
  have h := le_roundHalfEven (x * 100)
  linarith

theorem round2_le_intCast (x : ℚ) (m : ℤ) (h : x ≤ (m : ℚ)) :
    round2 x ≤ (m : ℚ) := by
  unfold round2
  have h1 := roundHalfEven_le (x * 100)
  have hq : ((roundHalfEven (x * 100) : ℤ) : ℚ) < ((100 * m : ℤ) : ℚ) + 1 := by
    push_cast
    linarith
  have hz : roundHalfEven (x * 100) < 100 * m + 1 := by exact_mod_cast hq
  have hz2 : ((roundHalfEven (x * 100) : ℤ) : ℚ) ≤ ((100 * m : ℤ) : ℚ) := by
    exact_mod_cast Int.lt_add_one_iff.mp hz
  push_cast at hz2
  linarith

theorem intCast_le_round2 (x : ℚ) (m : ℤ) (h : (m : ℚ) ≤ x) :
    (m : ℚ) ≤ round2 x := by
  unfold round2
  have h1 := le_roundHalfEven (x * 100)
  have hq : ((100 * m : ℤ) : ℚ) - 1 < ((roundHalfEven (x * 100) : ℤ) : ℚ) := by
    push_cast
    linarith
  have hz : 100 * m - 1 < roundHalfEven (x * 100) := by exact_mod_cast hq
  have hz2 : ((100 * m : ℤ) : ℚ) ≤ ((roundHalfEven (x * 100) : ℤ) : ℚ) := by
    exact_mod_cast (by omega : 100 * m ≤ roundHalfEven (x * 100))
  push_cast at hz2
  linarith

/-! ## Helper lemmas about the generators -/

theorem genTxnsOverDates_map_date (rnd : TxnRand) (aid aty : String) :
    ∀ (ds : List ℤ) (rb : ℚ) (c : Nat),
      (genTxnsOverDates rnd aid aty ds rb c).1.map Txn.transaction_date = ds := by
  intro ds
  induction ds with
  | nil => intro rb c; rfl
  | cons d rest ih =>
    intro rb c
    simp only [genTxnsOverDates, List.map_cons]
    rw [ih]

theorem genTxnsOverDates_length (rnd : TxnRand) (aid aty : String)
    (ds : List ℤ) (rb : ℚ) (c : Nat) :
    (genTxnsOverDates rnd aid aty ds rb c).1.length = ds.length := by
  have h := congrArg List.length (genTxnsOverDates_map_date rnd aid aty ds rb c)
  simpa using h

theorem genTxnsOverDates_account_id (rnd : TxnRand) (aid aty : String) :
    ∀ (ds : List ℤ) (rb : ℚ) (c : Nat),
      ∀ t ∈ (genTxnsOverDates rnd aid aty ds rb c).1, t.account_id = aid := by
  intro ds
  induction ds with
  | nil => intro rb c t ht; simp [genTxnsOverDates] at ht
  | cons d rest ih =>
    intro rb c t ht
    simp only [genTxnsOverDates, List.mem_cons] at ht
    rcases ht with h | h
    · rw [h]
    · exact ih _ _ t h

theorem mem_generate_transaction_data_aux (rnd : TxnRand) :
    ∀ (accounts : List Account) (accIdx txn_counter : Nat),
      ∀ t ∈ generate_transaction_data_aux rnd accounts accIdx txn_counter,
        t.account_id ∈ accounts.map Account.account_id := by
  intro accounts
  induction accounts with
  | nil => intro ai c t ht; simp [generate_transaction_data_aux] at ht
  | cons acc rest ih =>
    intro ai c t ht
    simp only [generate_transaction_data_aux, List.mem_append] at ht
    rcases ht with h | h
    · have : t.account_id = acc.account_id :=
        genTxnsOverDates_account_id rnd acc.account_id acc.account_type _ _ _ t h
      simp [this]
    · simp only [List.map_cons, List.mem_cons]
      exact Or.inr (ih _ _ t h)

theorem mem_generate_account_data_aux (rnd : AccountRand) :
    ∀ (customers : List Customer) (custIdx counter : Nat),
      ∀ a ∈ generate_account_data_aux rnd customers custIdx counter,
        a.customer_id ∈ customers.map Customer.customer_id := by
  intro customers
  induction customers with
  | nil => intro ci k a ha; simp [generate_account_data_aux] at ha
  | cons cust rest ih =>
    intro ci k a ha
    simp only [generate_account_data_aux, List.mem_append] at ha
    rcases ha with h | h
    · rcases List.mem_map.mp h with ⟨j, -, rfl⟩
      simp [mkAccount]
    · simp only [List.map_cons, List.mem_cons]
      exact Or.inr (ih _ _ a h)

theorem mem_generate_account_data_mk (rnd : AccountRand) :
    ∀ (customers : List Customer) (custIdx counter : Nat),
      ∀ a ∈ generate_account_data_aux rnd customers custIdx counter,
        ∃ cust m, a = mkAccount rnd cust m := by
  intro customers
  induction customers with
  | nil => intro ci k a ha; simp [generate_account_data_aux] at ha
  | cons cust rest ih =>
    intro ci k a ha
    simp only [generate_account_data_aux, List.mem_append] at ha
    rcases ha with h | h
    · rcases List.mem_map.mp h with ⟨j, -, rfl⟩
      exact ⟨cust, k + j, rfl⟩
    · exact ih _ _ a h

theorem headI_mem {α : Type} [Inhabited α] {l : List α} (h : l ≠ []) :
    l.headI ∈ l := by
  cases l with
  | nil => exact absurd rfl h
  | cons x xs => simp

/-! ## Claim C5 -/

/-- C5: for every account processed by the transaction generator (every random
source, any account, any counter state), the transaction_date values of the
account's emitted transactions are monotonically non-decreasing in emission
order, because the drawn dates are sorted ascending before the per-date loop
runs. -/
theorem claim_txn_dates_sorted (rnd : TxnRand) (acc : Account)
    (accIdx txn_counter : Nat) :
    ((genTxnsForAccount rnd acc accIdx txn_counter).1.map
      Txn.transaction_date).Sorted (· ≤ ·) := by
  unfold genTxnsForAccount
  rw [genTxnsOverDates_map_date]
  exact List.sorted_insertionSort _ _

/-! ## Claim C3 -/

/-- C3: referential closure of the generated dataset — every generated
account's customer_id is the id of some customer in the input customer set,
and every generated transaction's account_id is the id of some account in the
input account set, for every random source. -/
theorem claim_referential_closure :
    (∀ (customer_df : List Customer) (arnd : AccountRand),
      ∀ a ∈ generate_account_data customer_df arnd,
        a.customer_id ∈ customer_df.map Customer.customer_id) ∧
    (∀ (account_df : List Account) (trnd : TxnRand),
      ∀ t ∈ generate_transaction_data account_df trnd,
        t.account_id ∈ account_df.map Account.account_id) :=
  ⟨fun customer_df arnd a ha =>
    mem_generate_account_data_aux arnd customer_df 0 1 a ha,
   fun account_df trnd t ht =>
    mem_generate_transaction_data_aux trnd account_df 0 1 t ht⟩

/-- Witness for C3 at concrete inputs: a one-customer set with the fixture
oracle produces an account referring back to that customer, and a one-account
set produces transactions referring back to that account. -/
theorem claim_referential_closure_witness :
    (mkAccount arndW custW 1).customer_id ∈ ([custW].map Customer.customer_id) ∧
    (generate_transaction_data [accW] trndW).headI.account_id ∈
      ([accW].map Account.account_id) := by
  constructor
  · exact claim_referential_closure.1 [custW] arndW _
      (by simp [generate_account_data, generate_account_data_aux, arndW])
  · refine claim_referential_closure.2 [accW] trndW _ (headI_mem ?_)
    have hlen : (generate_transaction_data [accW] trndW).length = 5 := by
      simp only [generate_transaction_data, generate_transaction_data_aux,
        genTxnsForAccount, List.append_nil]
      rw [genTxnsOverDates_length]
      simp [trndW]
    intro hnil
    rw [hnil] at hlen
    simp at hlen

/-! ## Claim C6 -/

/-- C6: under the fact that every log-normal base-balance draw is positive,
every generated account with type Credit has balance ≤ 0, every account with
type Savings or Checking has balance ≥ 0, and every balance is an exact
multiple of a cent (rounded to two decimal places). -/
theorem claim_balance_signs (customer_df : List Customer) (rnd : AccountRand)
    (hdraw : ∀ i, 0 < rnd.balanceDraw i) :
    ∀ a ∈ generate_account_data customer_df rnd,
      (a.account_type = "Credit" → a.balance ≤ 0) ∧
      ((a.account_type = "Savings" ∨ a.account_type = "Checking") →
        0 ≤ a.balance) ∧
      ∃ cents : ℤ, a.balance = (cents : ℚ) / 100 := by
  intro a ha
  rcases mem_generate_account_data_mk rnd customer_df 0 1 a ha with ⟨cust, m, rfl⟩
  rcases hv : rnd.typeChoice m with ⟨iv, hlt⟩
  have hlt3 : iv < 3 := by simpa [account_types] using hlt
  rcases iv with _ | _ | _ | n
  · have htype : (mkAccount rnd cust m).account_type = "Savings" := by
      simp [mkAccount, hv, account_types]
    have hbal : (mkAccount rnd cust m).balance =
        round2 (max 0 (rnd.balanceDraw m)) := by
      simp [mkAccount, hv, account_types]
    refine ⟨fun habs => ?_, fun _ => ?_, ?_⟩
    · rw [htype] at habs
      exact absurd habs (by decide)
    · rw [hbal]
      have h0 : ((0 : ℤ) : ℚ) ≤ max 0 (rnd.balanceDraw m) := by
        push_cast
        exact le_max_left 0 _
      have := intCast_le_round2 (max 0 (rnd.balanceDraw m)) 0 h0
      simpa using this
    · rw [hbal]
      exact ⟨roundHalfEven (max 0 (rnd.balanceDraw m) * 100), rfl⟩
  · have htype : (mkAccount rnd cust m).account_type = "Checking" := by
      simp [mkAccount, hv, account_types]
    have hbal : (mkAccount rnd cust m).balance =
        round2 (max 0 (rnd.balanceDraw m)) := by
      simp [mkAccount, hv, account_types]
    refine ⟨fun habs => ?_, fun _ => ?_, ?_⟩
    · rw [htype] at habs
      exact absurd habs (by decide)
    · rw [hbal]
      have h0 : ((0 : ℤ) : ℚ) ≤ max 0 (rnd.balanceDraw m) := by
        push_cast
        exact le_max_left 0 _
      have := intCast_le_round2 (max 0 (rnd.balanceDraw m)) 0 h0
      simpa using this
    · rw [hbal]
      exact ⟨roundHalfEven (max 0 (rnd.balanceDraw m) * 100), rfl⟩
  · have htype : (mkAccount rnd cust m).account_type = "Credit" := by
      simp [mkAccount, hv, account_types]
    have hbal : (mkAccount rnd cust m).balance =
        round2 (-(rnd.balanceDraw m)) := by
      simp [mkAccount, hv, account_types]
    refine ⟨fun _ => ?_, fun hsc => ?_, ?_⟩
    · rw [hbal]
      have h0 : -(rnd.balanceDraw m) ≤ ((0 : ℤ) : ℚ) := by
        have := hdraw m
        push_cast
        linarith
      have := round2_le_intCast (-(rnd.balanceDraw m)) 0 h0
      simpa using this
    · exfalso
      rw [htype] at hsc
      rcases hsc with hs | hs <;> exact absurd hs (by decide)
    · rw [hbal]
      exact ⟨roundHalfEven (-(rnd.balanceDraw m) * 100), rfl⟩
  · omega

/-- Witness for C6: the fixture oracle (positive draw 5) with one customer
produces an account satisfying the sign and cent-multiple properties. -/
theorem claim_balance_signs_witness :
    ((mkAccount arndW custW 1).account_type = "Credit" →
      (mkAccount arndW custW 1).balance ≤ 0) ∧
    (((mkAccount arndW custW 1).account_type = "Savings" ∨
      (mkAccount arndW custW 1).account_type = "Checking") →
      0 ≤ (mkAccount arndW custW 1).balance) ∧
    ∃ cents : ℤ, (mkAccount arndW custW 1).balance = (cents : ℚ) / 100 :=
  claim_balance_signs [custW] arndW (fun _ => (by decide : (0 : ℚ) < 5)) _
    (by simp [generate_account_data, generate_account_data_aux, arndW])

/-! ## Claim C4 -/

/-- C4 counterexample: with running balance 20.03 (positive) and a large
enough draw, the outflow amount is 10.02, which exceeds the cap
`max(10, running_balance * 0.5) = 10.015` — rounding to two decimals is
applied after the cap and can push the amount above it.  So the claim "the
amount is at most max(10, running_balance*0.5)" is false as stated. -/
theorem claim_outflow_cap_counterexample :
    0 < (2003/100 : ℚ) ∧
    ¬ outflow_amount (2003/100) 11 ≤ max 10 ((2003/100) * (1/2)) := by
  constructor
  · norm_num
  · have hcap : max (10 : ℚ) ((2003/100) * (1/2)) = 2003/200 := by
      rw [max_eq_right (by norm_num)]
      norm_num
    have hmin : min (2003/200 : ℚ) 11 = 2003/200 := min_eq_left (by norm_num)
    have hfloor : (⌊(2003/200 : ℚ) * 100⌋ : ℤ) = 1001 := by
      norm_num
    have hrhe : roundHalfEven ((2003/200 : ℚ) * 100) = 1002 := by
      unfold roundHalfEven
      rw [hfloor]
      rw [if_neg (by norm_num), if_neg (by norm_num), if_neg (by norm_num)]
      norm_num
    have hr2 : round2 (2003/200 : ℚ) = 1002/100 := by
      unfold round2
      rw [hrhe]
      norm_num
    have hval : outflow_amount (2003/100) 11 = 1002/100 := by
      simp only [outflow_amount]
      rw [if_pos (by norm_num : (0:ℚ) < 2003/100), hcap, hmin, hr2]
      rw [max_eq_right (by norm_num : (1:ℚ) ≤ 1002/100)]
    rw [hval, hcap]
    norm_num

/-- C4 (amended): for outflow transactions the generated amount is at least
1.0; when the running balance is positive it is at most
`max(10, running_balance*0.5) + 0.005` (the cap bounds the value before
rounding to two decimals, which can add at most half a cent); when the
running balance is zero or negative it is at most the fallback ceiling 1000
exactly. -/
theorem claim_outflow_bounds (rb draw : ℚ) :
    1 ≤ outflow_amount rb draw ∧
    (0 < rb → outflow_amount rb draw ≤ max 10 (rb * (1/2)) + 1/200) ∧
    (rb ≤ 0 → outflow_amount rb draw ≤ 1000) := by
  unfold outflow_amount
  refine ⟨le_max_left 1 _, fun h => ?_, fun h => ?_⟩
  · rw [if_pos h]
    have hcap : (10 : ℚ) ≤ max 10 (rb * (1/2)) := le_max_left 10 _
    have hmin : min (max 10 (rb * (1/2))) draw ≤ max 10 (rb * (1/2)) :=
      min_le_left _ _
    have h1 : round2 (min (max 10 (rb * (1/2))) draw) ≤
        max 10 (rb * (1/2)) + 1/200 := by
      have := round2_le (min (max 10 (rb * (1/2))) draw)
      linarith
    exact max_le (by linarith) h1
  · rw [if_neg (not_lt.mpr h)]
    have h1 : round2 (min 1000 draw) ≤ ((1000 : ℤ) : ℚ) := by
      refine round2_le_intCast _ 1000 ?_
      have := min_le_left (1000 : ℚ) draw
      push_cast
      linarith
    push_cast at h1
    exact max_le (by norm_num) h1

/-- Witness for C4 at concrete inputs: running balances 20 (positive branch)
and 0 (fallback branch) with draw 7. -/
theorem claim_outflow_bounds_witness :
    1 ≤ outflow_amount 20 7 ∧
    outflow_amount 20 7 ≤ max 10 (20 * (1/2)) + 1/200 ∧
    outflow_amount 0 7 ≤ 1000 :=
  ⟨(claim_outflow_bounds 20 7).1,
   (claim_outflow_bounds 20 7).2.1 (by decide),
   (claim_outflow_bounds 0 7).2.2 (le_refl 0)⟩

/-! ## Claim C7 -/

set_option maxRecDepth 20000 in
theorem customerIdList_decode :
    (customerIdList 500).map decodeId = (List.range 500).map (fun k => k + 1) := by
  decide

theorem customerIdList_nodup : (customerIdList 500).Nodup := by
  have h2 : ((List.range 500).map (fun k => k + 1)).Nodup :=
    List.Nodup.map (fun a b h => by omega) (List.nodup_range 500)
  rw [← customerIdList_decode] at h2
  exact h2.of_map decodeId

/-- C7: for every random source, the customer generator at N = 500 yields
exactly 500 records; their customer_id values are exactly the sequential
zero-padded identifiers CUST_00001 .. CUST_00500 (in order), which are
pairwise distinct. -/
theorem claim_customer_ids (rnd : CustomerRand) (start_date : ℤ) :
    (generate_customer_data 500 rnd start_date).length = 500 ∧
    (generate_customer_data 500 rnd start_date).map Customer.customer_id =
      customerIdList 500 ∧
    ((generate_customer_data 500 rnd start_date).map Customer.customer_id).Nodup ∧
    custId 1 = "CUST_00001" ∧ custId 500 = "CUST_00500" := by
  have hmap : (generate_customer_data 500 rnd start_date).map
      Customer.customer_id = customerIdList 500 := by
    unfold generate_customer_data customerIdList
    rw [List.map_map]
    rfl
  refine ⟨by simp [generate_customer_data], hmap, ?_, by decide, by decide⟩
  rw [hmap]
  exact customerIdList_nodup

/-! ## Claim C1 -/

/-- C1: evaluation of the loader at the spec's load scenario — a 3-row file
loaded with batch size 1 in the mode `main` passes (`if_exists='replace'` for
every batch, line 132) over a pre-existing 1-row table.  All 3 batches are
processed and `rows_loaded` reaches 3, but because every batch runs
`to_sql(..., if_exists='replace')`, each batch drops the table again and the
final table holds only the last batch's single row — not the 3 rows the spec
requires. -/
theorem claim_load_replace_every_batch :
    load_csv_to_table [1, 2, 3] 1 IfExists.replace (fun chunk => Except.ok chunk)
      (some [0]) = Except.ok ⟨some [3], 3, 3⟩ := by
  have h1 : chunksOf 1 [1, 2, 3] = [[1], [2], [3]] := by
    rw [chunksOf.eq_def]
    norm_num
    rw [chunksOf.eq_def]
    norm_num
    rw [chunksOf.eq_def]
    norm_num
    rw [chunksOf.eq_def]
  unfold load_csv_to_table
  rw [h1]
  rfl

/-! ## Claim C2 -/

/-- C2: the generator does emit `merchant_category_code` values from the fixed
4-digit lookup (with `"0000"` for the Unknown/Deposit case), but the claimed
write/read round trip does not preserve them: every code is an all-digit
string, so the loader's `read_csv` infers an integer column, and the value
`"0000"` comes back from `fillna('0000').astype(str)` as `"0"`. -/
theorem claim_mcc_roundtrip :
    mccOf "Unknown" = "0000" ∧
    (mcc_codes.map Prod.snd).all (fun c => isDigitString c && c.length == 4) ∧
    mccColumnRoundTrip ["5411", "0000"] = ["5411", "0"] := by
  decide

/-! ## Claim C9 -/

theorem map_fst_patch (col : String) (cells : List Cell) :
    ∀ l : List (String × List Cell),
      (l.map (fun q => if q.1 == col then (q.1, cells) else q)).map Prod.fst =
        l.map Prod.fst
  | [] => rfl
  | q :: rest => by
    simp only [List.map_cons, map_fst_patch col cells rest]
    congr 1
    split
    · rfl
    · rfl

theorem mem_patch (col : String) (cells : List Cell) :
    ∀ (l : List (String × List Cell)) (p : String × List Cell), p ∈ l →
      p.1 ≠ col →
      p ∈ l.map (fun q => if q.1 == col then (q.1, cells) else q) := by
  intro l
  induction l with
  | nil => intro p hp; simp at hp
  | cons q rest ih =>
    intro p hp hne
    rcases List.mem_cons.mp hp with rfl | hmem
    · have hb : (p.1 == col) = false := beq_eq_false_iff_ne.mpr hne
      simp only [List.map_cons, hb, Bool.false_eq_true, if_false]
      exact List.mem_cons_self _ _
    · exact List.mem_cons_of_mem _ (ih p hmem hne)

theorem setCol_map_fst (ch : Chunk) (col : String) (cells : List Cell) :
    (setCol ch col cells).cols.map Prod.fst = ch.cols.map Prod.fst :=
  map_fst_patch col cells ch.cols

theorem mem_setCol (ch : Chunk) (col : String) (cells : List Cell)
    (p : String × List Cell) (hp : p ∈ ch.cols) (hne : p.1 ≠ col) :
    p ∈ (setCol ch col cells).cols :=
  mem_patch col cells ch.cols p hp hne

theorem hasCol_eq_of_map_fst {c1 c2 : Chunk}
    (h : c1.cols.map Prod.fst = c2.cols.map Prod.fst) (name : String) :
    hasCol c1 name = hasCol c2 name := by
  have e1 : ∀ l : List (String × List Cell),
      l.any (fun p => p.1 == name) = (l.map Prod.fst).any (fun s => s == name) := by
    intro l
    induction l with
    | nil => rfl
    | cons q rest ih => simp only [List.any_cons, List.map_cons, ih]
  unfold hasCol
  rw [e1, e1, h]

theorem force_col_ok (ch : Chunk) (col : String) (f : List Cell → List Cell) :
    ∃ ch2, force_col_if_present ch col f = .ok ch2 ∧
      ch2.cols.map Prod.fst = ch.cols.map Prod.fst ∧
      ∀ p ∈ ch.cols, p.1 ≠ col → p ∈ ch2.cols := by
  unfold force_col_if_present
  by_cases h : hasCol ch col
  · rw [if_pos h]
    have hfind : (ch.cols.find? (fun p => p.1 == col)).isSome := by
      unfold hasCol at h
      rcases List.any_eq_true.mp h with ⟨x, hx, hpx⟩
      exact List.find?_isSome.mpr ⟨x, hx, hpx⟩
    rcases Option.isSome_iff_exists.mp hfind with ⟨q, hq⟩
    refine ⟨setCol ch col (f q.2), ?_, setCol_map_fst ch col (f q.2),
      fun p hp hne => mem_setCol ch col (f q.2) p hp hne⟩
    unfold getCol
    rw [hq]
    rfl
  · rw [if_neg h]
    exact ⟨ch, rfl, rfl, fun p hp _ => hp⟩

theorem foldlM_force_ok (f : String → List Cell → List Cell) :
    ∀ (cols : List String) (ch : Chunk),
      ∃ ch2,
        (cols.foldlM (fun c col => force_col_if_present c col (f col)) ch) =
          .ok ch2 ∧
        ch2.cols.map Prod.fst = ch.cols.map Prod.fst ∧
        ∀ p ∈ ch.cols, p.1 ∉ cols → p ∈ ch2.cols := by
  intro cols
  induction cols with
  | nil => intro ch; exact ⟨ch, rfl, rfl, fun p hp _ => hp⟩
  | cons col rest ih =>
    intro ch
    rcases force_col_ok ch col (f col) with ⟨ch1, h1, hn1, hm1⟩
    rcases ih ch1 with ⟨ch2, h2, hn2, hm2⟩
    refine ⟨ch2, ?_, hn2.trans hn1, ?_⟩
    · rw [List.foldlM_cons, h1]
      exact h2
    · intro p hp hpn
      have hne : p.1 ≠ col := fun hcol => hpn (hcol ▸ List.mem_cons_self _ _)
      have hrest : p.1 ∉ rest := fun hr => hpn (List.mem_cons_of_mem _ hr)
      exact hm2 p (hm1 p hp hne) hrest

/-- C9: on a transactions batch whose columns lack `merchant_category_code`,
the per-batch dtype fixes do not raise on the missing column (the forcing is
guarded by `if 'merchant_category_code' in chunk.columns`); the batch comes
back successfully with the same column set, and every column other than the
designated date/string columns is untouched, so the remaining columns are
still loaded. -/
theorem claim_missing_mcc_column_ok (parse : String → Option ℤ) (chunk : Chunk)
    (hmcc : hasCol chunk "merchant_category_code" = false) :
    ∃ chunk2,
      preprocess_chunk parse ["transaction_date"] chunk = .ok chunk2 ∧
      chunk2.cols.map Prod.fst = chunk.cols.map Prod.fst ∧
      ∀ p ∈ chunk.cols, p.1 ≠ "transaction_date" →
        p.1 ∉ critical_string_cols → p ∈ chunk2.cols := by
  rcases foldlM_force_ok (fun _ => List.map (to_datetime_coerce parse))
    ["transaction_date"] chunk with ⟨c1, h1, hn1, hm1⟩
  have hmcc1 : hasCol c1 "merchant_category_code" = false := by
    rw [hasCol_eq_of_map_fst hn1 "merchant_category_code"]
    exact hmcc
  have h2 : force_col_if_present c1 "merchant_category_code"
      (List.map (fun c => astypeStr (fillna (.str "0000") c))) = .ok c1 := by
    unfold force_col_if_present
    rw [hmcc1]
    rfl
  rcases foldlM_force_ok (fun _ => fun cells => cells) critical_string_cols c1
    with ⟨c2, h3, hn3, hm3⟩
  refine ⟨c2, ?_, hn3.trans hn1, ?_⟩
  · unfold preprocess_chunk
    rw [h1]
    show (force_col_if_present c1 "merchant_category_code" _ >>= _) = _
    rw [h2]
    exact h3
  · intro p hp hd hs
    have hp1 : p ∈ c1.cols := hm1 p hp (by simpa using hd)
    exact hm3 p hp1 hs

/-- Witness for C9: a concrete two-column transactions batch without
`merchant_category_code` preprocesses without raising. -/
theorem claim_missing_mcc_column_ok_witness :
    isErr (preprocess_chunk (fun _ => none) ["transaction_date"] chunkW) =
      false := by
  rcases claim_missing_mcc_column_ok (fun _ => none) chunkW (by decide)
    with ⟨c2, heq, -, -⟩
  rw [heq]
  rfl

/-! ## Claim C8 -/

/-- C8 counterexample: with every required value present but `DB_PORT` set to
the non-integer string "abc", the connection provider still raises — the port
is parsed (line 58) before the missing-variables check (line 61) — so
"raises a configuration error iff a required value is missing" is false as
stated in the only-if direction. -/
theorem claim_engine_config_error_counterexample :
    missing_vars ⟨some "u", some "p", some "h", some "abc", some "d"⟩ = [] ∧
    isErr (get_database_engine
      ⟨some "u", some "p", some "h", some "abc", some "d"⟩) = true := by
  decide

/-- C8 (amended): the connection provider raises a configuration error before
any I/O iff a required value (DB_USER, DB_PASSWORD, DB_NAME) is missing or
empty, or DB_PORT is present and invalid; whenever the port reading succeeds
and some required value is missing, the raised error enumerates every missing
name (not just the first), joined in fixed order. -/
theorem claim_engine_config_errors (env : Env) :
    (isErr (get_database_engine env) = true ↔
      (isErr (_env_int env.DB_PORT 5432) = true ∨ missing_vars env ≠ [])) ∧
    (∀ p, _env_int env.DB_PORT 5432 = .ok p → missing_vars env ≠ [] →
      get_database_engine env =
        .error ("Missing required environment variables: " ++
          String.intercalate ", " (missing_vars env))) := by
  unfold get_database_engine
  cases hport : _env_int env.DB_PORT 5432 with
  | error e =>
    exact ⟨by simp [isErr], fun p hp => absurd hp (by simp)⟩
  | ok p0 =>
    by_cases hm : missing_vars env = []
    · exact ⟨by simp [isErr, hm], fun p hp hne => absurd hm hne⟩
    · exact ⟨by simp [isErr, hm], fun p hp hne => by simp [hm]⟩

/-- Witness for C8: with `DB_USER` unset, `DB_PORT` unset (default port) and
the other values present, the provider raises the enumerating message. -/
theorem claim_engine_config_errors_witness :
    get_database_engine envW =
      .error ("Missing required environment variables: " ++
        String.intercalate ", " (missing_vars envW)) :=
  (claim_engine_config_errors envW).2 5432 rfl (by decide)

/-! ## Claim C10 -/

/-- C10: the port reader returns the default 5432 without raising when DB_PORT
is unset or empty, and raises exactly when DB_PORT is a non-empty string that
either does not parse as a Python integer or parses to an integer outside
1..65535. -/
theorem claim_env_int_behavior (raw : Option String) :
    (raw = none → _env_int raw 5432 = .ok 5432) ∧
    (raw = some "" → _env_int raw 5432 = .ok 5432) ∧
    (∀ s, raw = some s → s ≠ "" →
      (isErr (_env_int raw 5432) = true ↔
        (pyInt s = none ∨ ∃ v, pyInt s = some v ∧ (v < 1 ∨ 65535 < v)))) := by
  refine ⟨fun h => by rw [h]; rfl, fun h => by rw [h]; rfl, ?_⟩
  intro s hS hne
  subst hS
  simp only [_env_int]
  rw [if_neg hne]
  cases hp : pyInt s with
  | none => simp [isErr]
  | some v =>
    by_cases hr : 1 ≤ v ∧ v ≤ 65535
    · simp only [isErr, Option.some.injEq]
      rw [if_pos hr]
      constructor
      · intro h
        exact absurd h (by simp [isErr])
      · rintro (h | ⟨w, rfl, hw⟩)
        · exact absurd h (by simp)
        · exact absurd hr (by omega)
    · simp only [isErr, Option.some.injEq]
      rw [if_neg hr]
      constructor
      · intro _
        right
        exact ⟨v, rfl, by omega⟩
      · intro _
        rfl

/-- Witness for C10: unset and empty DB_PORT give the default; the out-of-range
value "70000" raises. -/
theorem claim_env_int_behavior_witness :
    _env_int none 5432 = .ok 5432 ∧
    _env_int (some "") 5432 = .ok 5432 ∧
    (isErr (_env_int (some "70000") 5432) = true ↔
      (pyInt "70000" = none ∨
        ∃ v, pyInt "70000" = some v ∧ (v < 1 ∨ 65535 < v))) :=
  ⟨(claim_env_int_behavior none).1 rfl,
   (claim_env_int_behavior (some "")).2.1 rfl,
   (claim_env_int_behavior (some "70000")).2.2 "70000" rfl (by decide)⟩

end Bank
